import Mathlib

/-!
Verification development for the ArchiFusion multimodal CAD-generation core.

The definitions below are a shallow embedding of the TypeScript sources:

* `src/services/multimodal-processor.ts` — heuristic text analyzer,
  grid-packing model synthesizer, strategy dispatch, visual enhancement;
* `src/services/agent-orchestrator.ts` — three-stage agent pipeline;
* `src/app/api/cad-generator/route.ts` — job store and background job driver;
* `src/app/api/multimodal-processor/route.ts` and
  `src/app/api/quick-generate/route.ts` — HTTP handlers.

Conventions of the embedding:

* JavaScript numbers are modelled as `ℚ` (the claims proved here never depend
  on binary floating-point rounding, only on order/count/sign facts that hold
  for either arithmetic);
* JavaScript string truthiness (`""` and `undefined`/absent are falsy) is
  modelled by `truthy : Option String → Bool`;
* the outcome of every external asynchronous call (Azure OpenAI, sketch and
  photo analysis, the three agents) is an explicit environment parameter, so
  the pure orchestration logic can be quantified over all outcomes;
* the regular-expression matching done by `analyzeTextRequirements` is
  hand-compiled to character-list scanners with JavaScript leftmost-first
  semantics (for these particular patterns greedy matching never needs to
  backtrack, because no continuation of a starred class can start with a
  character of that class); case-insensitive matching is modelled by
  lowering the text first, which agrees with `/i` on ASCII input.
-/

/-- JavaScript truthiness of an optional string field: absent and `""` are falsy. -/
def truthy : Option String → Bool
  | none => false
  | some s => !(s == "")

/-- JavaScript `a || d` for an optional string `a` and default `d`. -/
def jsOr (o : Option String) (d : String) : String :=
  match o with
  | none => d
  | some s => if s = "" then d else s

/-- JavaScript `s.substring(0, n)` (on code points; fine for the ASCII inputs used). -/
def takeChars (n : Nat) (s : String) : String :=
  String.mk (s.data.take n)

/-- Lower-cased character list of a string, modelling `text.toLowerCase()` (ASCII). -/
def lowerOf (s : String) : List Char :=
  s.data.map Char.toLower

/-- Substring containment, modelling JavaScript `haystack.includes(needle)`. -/
def containsSub (pat : List Char) : List Char → Bool
  | [] => pat.isEmpty
  | c :: cs => pat.isPrefixOf (c :: cs) || containsSub pat cs

/-- Characters matched by the JavaScript `\s` class (ASCII portion). -/
def isJsWs (c : Char) : Bool :=
  c = ' ' || c = '\t' || c = '\n' || c = '\r' || c = '\x0b' || c = '\x0c'

/-- Characters matched by the class `[\s-]`. -/
def isWsDash (c : Char) : Bool :=
  isJsWs c || c = '-'

/-- Maximal leading run of decimal digits (greedy `\d+`/`\d*`). -/
def takeDigits (cs : List Char) : List Char :=
  cs.takeWhile Char.isDigit

/-- First run of decimal digits anywhere in the list, modelling `s.match(/\d+/)`. -/
def firstDigitRun : List Char → List Char
  | [] => []
  | c :: cs => if c.isDigit then (c :: cs).takeWhile Char.isDigit else firstDigitRun cs

/-- Decimal value of a digit run, modelling `parseInt` on the matched digits. -/
def digitsToNat (ds : List Char) : Nat :=
  ds.foldl (fun n c => n * 10 + (c.toNat - 48)) 0

/-- Leftmost-match scan: try the position matcher at every suffix, left to right.
This is how a JavaScript regex engine finds the first match of a pattern. -/
def scanFirst (f : List Char → Option (List Char)) : List Char → Option (List Char)
  | [] => f []
  | c :: cs => (f (c :: cs)).orElse (fun _ => scanFirst f cs)

/-- Position matcher for `/(\d+)?[\s-]*(kw)s?/` at the head of `cs` (the `bedroom`
and `bathroom` patterns, whose two keyword alternatives share the prefix `kw`,
so the first alternative always wins).  Returns the matched characters. -/
def countedMatchAt (kw : List Char) (cs : List Char) : Option (List Char) :=
  let ds := takeDigits cs
  let r1 := cs.drop ds.length
  let ws := r1.takeWhile isWsDash
  let r2 := r1.drop ws.length
  if kw.isPrefixOf r2 then
    let r3 := r2.drop kw.length
    some (ds ++ ws ++ kw ++ (if r3.head? = some 's' then ['s'] else []))
  else none

/-- Position matcher for one alternative written as literal segments joined by
`\s*` (e.g. `living\s*room` is `[seg "living", seg "room"]`). -/
def seqWsMatchAt : List (List Char) → List Char → Option (List Char)
  | [], _ => some []
  | seg :: rest, cs =>
    if seg.isPrefixOf cs then
      let cs1 := cs.drop seg.length
      match rest with
      | [] => some seg
      | _ =>
        let ws := cs1.takeWhile isJsWs
        (seqWsMatchAt rest (cs1.drop ws.length)).map (fun t => seg ++ ws ++ t)
    else none

/-- Position matcher for an alternation, trying alternatives in written order. -/
def altMatchAt (alts : List (List (List Char))) (cs : List Char) : Option (List Char) :=
  alts.findSome? (fun alt => seqWsMatchAt alt cs)

/-- Position matcher for `/(\d+)[\s-]*(story|stories|floor|floors)/`, returning
capture group 1 (the digits), as used by the floor-count detection. -/
def floorMatchAt (cs : List Char) : Option (List Char) :=
  let ds := takeDigits cs
  if ds = [] then none
  else
    let r1 := cs.drop ds.length
    let r2 := r1.drop (r1.takeWhile isWsDash).length
    if ["story".data, "stories".data, "floor".data, "floors".data].any
        (fun w => w.isPrefixOf r2) then
      some ds
    else none

/-- One requested room: its type keyword and its generated name. -/
structure RoomReq where
  type : String
  name : String
deriving Repr, DecidableEq

/-- The `roomPatterns` table of `analyzeTextRequirements`, in `Object.entries`
iteration (insertion) order, each regex hand-compiled to a position matcher. -/
def roomPatterns : List (String × (List Char → Option (List Char))) :=
  [("bedroom", countedMatchAt "bed".data),
   ("bathroom", countedMatchAt "bath".data),
   ("kitchen", altMatchAt [["kitchen".data], ["cooking".data], ["culinary".data]]),
   ("living", altMatchAt [["living".data, "room".data], ["lounge".data],
                          ["family".data, "room".data]]),
   ("dining", altMatchAt [["dining".data, "room".data], ["dining".data, "area".data]]),
   ("office", altMatchAt [["office".data], ["study".data], ["workspace".data],
                          ["home".data, "office".data]]),
   ("garage", altMatchAt [["garage".data], ["parking".data]]),
   ("basement", altMatchAt [["basement".data], ["cellar".data]]),
   ("attic", altMatchAt [["attic".data], ["loft".data]]),
   ("utility", altMatchAt [["utility".data], ["laundry".data], ["storage".data]])]

/-- Room count taken from the first match: first digit run, default 1
(`matches[0].match(/\d+/)` then `parseInt`, else 1). -/
def roomCountOf (m : List Char) : Nat :=
  match firstDigitRun m with
  | [] => 1
  | ds => digitsToNat ds

/-- The `for (let i = 0; i < count; i++) rooms.push(...)` loop: `count` entries,
numbered names when `count > 1`. -/
def roomEntries (t : String) (count : Nat) : List RoomReq :=
  (List.range count).map (fun i => ⟨t, if count > 1 then t ++ toString (i + 1) else t⟩)

/-- Keyword test against the lowered input (`lower.includes(kw)`). -/
def incKw (lower : List Char) (kw : String) : Bool :=
  containsSub kw.data lower

/-- Commercial building-type keyword family. -/
def hasCommercialKeyword (lower : List Char) : Bool :=
  incKw lower "office" || incKw lower "commercial" || incKw lower "business"

/-- Hospitality building-type keyword family. -/
def hasHospitalityKeyword (lower : List Char) : Bool :=
  incKw lower "hotel" || incKw lower "restaurant" || incKw lower "retail"

/-- Building type detection with residential default. -/
def detectBuildingType (lower : List Char) : String :=
  if hasCommercialKeyword lower then "commercial"
  else if hasHospitalityKeyword lower then "hospitality"
  else "residential"

/-- Room extraction: fold over the pattern table, appending the entries for
each pattern that matches somewhere in the input. -/
def extractRooms (lower : List Char) : List RoomReq :=
  roomPatterns.foldl
    (fun acc p =>
      match scanFirst p.2 lower with
      | none => acc
      | some m => acc ++ roomEntries p.1 (roomCountOf m))
    []

/-- Type-appropriate default room set, substituted when no room was extracted. -/
def defaultRooms (buildingType : String) : List RoomReq :=
  if buildingType = "commercial" then
    [⟨"office", "main_office"⟩, ⟨"meeting", "conference_room"⟩, ⟨"reception", "lobby"⟩]
  else
    [⟨"living", "living_room"⟩, ⟨"kitchen", "kitchen"⟩, ⟨"bedroom", "bedroom"⟩,
     ⟨"bathroom", "bathroom"⟩]

/-- Large-size keyword family. -/
def hasLargeKeyword (lower : List Char) : Bool :=
  incKw lower "large" || incKw lower "spacious" || incKw lower "luxury"

/-- Small-size keyword family. -/
def hasSmallKeyword (lower : List Char) : Bool :=
  incKw lower "small" || incKw lower "compact" || incKw lower "tiny"

/-- Size-class detection with medium default. -/
def detectSize (lower : List Char) : String :=
  if hasLargeKeyword lower then "large"
  else if hasSmallKeyword lower then "small"
  else "medium"

/-- Modern style keyword family. -/
def hasModernKeyword (lower : List Char) : Bool :=
  incKw lower "modern" || incKw lower "contemporary"

/-- Traditional style keyword family. -/
def hasTraditionalKeyword (lower : List Char) : Bool :=
  incKw lower "traditional" || incKw lower "classic"

/-- Industrial style keyword family. -/
def hasIndustrialKeyword (lower : List Char) : Bool :=
  incKw lower "industrial"

/-- Style detection; the field is initialized to "modern", so no keyword means
modern. -/
def detectStyle (lower : List Char) : String :=
  if hasModernKeyword lower then "modern"
  else if hasTraditionalKeyword lower then "traditional"
  else if hasIndustrialKeyword lower then "industrial"
  else "modern"

/-- Floor-count detection (`lower.match(/(\d+)[\s-]*(story|stories|floor|floors)/)`),
default 1. -/
def detectFloors (lower : List Char) : Nat :=
  match scanFirst floorMatchAt lower with
  | some ds => digitsToNat ds
  | none => 1

/-- The requirement set produced by the heuristic text analyzer. -/
structure Analysis where
  buildingType : String := "residential"
  rooms : List RoomReq := []
  features : List String := []
  style : String := "modern"
  size : String := "medium"
  floors : Nat := 1
deriving Repr, DecidableEq

/-- The Heuristic Text Analyzer `analyzeTextRequirements` of
`multimodal-processor.ts` (lines 1094–1182).  A total Lean function: the
TypeScript never throws either. -/
def analyzeTextRequirements (text : String) : Analysis :=
  let lower := lowerOf text
  let buildingType := detectBuildingType lower
  let extracted := extractRooms lower
  { buildingType := buildingType,
    rooms := if extracted.length = 0 then defaultRooms buildingType else extracted,
    features := [],
    style := detectStyle lower,
    size := detectSize lower,
    floors := detectFloors lower }

/-- A synthesized room of the architectural model. -/
structure SynthRoom where
  name : String
  width : ℚ
  length : ℚ
  height : ℚ
  x : ℚ
  y : ℚ
  z : ℚ
  connected_to : List String
deriving Repr, DecidableEq

/-- A window of the architectural model. -/
structure Window where
  room : String
  wall : String
  width : ℚ
  height : ℚ
  position : ℚ
deriving Repr, DecidableEq

/-- A door of the architectural model; `from_`/`to_` are the JS `from`/`to`. -/
structure Door where
  from_ : String
  to_ : String
  width : ℚ
  height : ℚ
deriving Repr, DecidableEq

/-- The architectural model `{rooms, windows, doors}`; `style` is an extra field
that `enhanceWithVisualData` may add. -/
structure ModelData where
  rooms : List SynthRoom
  windows : List Window
  doors : List Door
  style : Option String := none
deriving Repr, DecidableEq

/-- The `sizeMultipliers[analysis.size] || 1.0` lookup. -/
def sizeMultiplier (size : String) : ℚ :=
  if size = "small" then 7/10
  else if size = "medium" then 1
  else if size = "large" then 7/5
  else 1

/-- The `baseRoomSizes` table, with the `{width: 4, length: 4}` default. -/
def baseRoomSize (t : String) : ℚ × ℚ :=
  if t = "living" then (5, 6)
  else if t = "bedroom" then (7/2, 4)
  else if t = "bathroom" then (5/2, 3)
  else if t = "kitchen" then (3, 4)
  else if t = "dining" then (7/2, 4)
  else if t = "office" then (4, 5)
  else if t = "garage" then (6, 7)
  else if t = "utility" then (2, 5/2)
  else if t = "reception" then (6, 8)
  else if t = "meeting" then (4, 6)
  else (4, 4)

/-- Rounding `Math.round(q * 10) / 10` over ℚ (`Math.round` is floor of `x + 1/2`). -/
def jsRound10 (q : ℚ) : ℚ :=
  ((q * 10 + 1/2).floor : ℚ) / 10

/-- Mutable state of the grid-packing loop in `generateModelFromAnalysis`. -/
structure PackState where
  rooms : List SynthRoom
  windows : List Window
  doors : List Door
  currentX : ℚ
  currentZ : ℚ
  maxRowHeight : ℚ
deriving Repr

/-- Last element of the room list so far (`rooms[index - 1]` after `index`
pushes). -/
def lastRoom? : List SynthRoom → Option SynthRoom
  | [] => none
  | [r] => some r
  | _ :: r :: rs => lastRoom? (r :: rs)

/-- Placement of one room at the (already wrap-adjusted) cursor `(cx, cz)` with
current row height `mrh`: push the room, connect it to its predecessor with one
door, add the south window unless bathroom/utility, advance the cursor. -/
def placeRoom (st : PackState) (req : RoomReq) (width length cx cz mrh : ℚ) :
    PackState :=
  let room : SynthRoom :=
    { name := req.name, width := width, length := length, height := 3,
      x := cx, y := 0, z := cz, connected_to := [] }
  let st1 :=
    match lastRoom? st.rooms with
    | none => { st with rooms := st.rooms ++ [room] }
    | some prev =>
      { st with
        rooms := st.rooms.dropLast ++
          [{ prev with connected_to := prev.connected_to ++ [room.name] },
           { room with connected_to := [prev.name] }],
        doors := st.doors ++ [(⟨prev.name, room.name, 9/10, 21/10⟩ : Door)] }
  { st1 with
    windows :=
      if req.type = "bathroom" ∨ req.type = "utility" then st1.windows
      else st1.windows ++
        [(⟨room.name, "south", min (width * (2/5)) 2, 6/5, 1/2⟩ : Window)],
    currentX := cx + width + 1/2,
    currentZ := cz,
    maxRowHeight := max mrh length }

/-- One iteration of the packing loop: scale the base footprint, wrap to a new
row when `currentX + width > 15`, then place. -/
def packStep (mult : ℚ) (st : PackState) (req : RoomReq) : PackState :=
  let base := baseRoomSize req.type
  let width := jsRound10 (base.1 * mult)
  let length := jsRound10 (base.2 * mult)
  if st.currentX + width > 15 then
    placeRoom st req width length 0 (st.currentZ + st.maxRowHeight + 1/2) 0
  else
    placeRoom st req width length st.currentX st.currentZ st.maxRowHeight

/-- The Model Synthesizer `generateModelFromAnalysis` of
`multimodal-processor.ts` (lines 1184–1264): deterministic left-to-right grid
packer over the requested rooms. -/
def generateModelFromAnalysis (a : Analysis) : ModelData :=
  let mult := sizeMultiplier a.size
  let final := a.rooms.foldl (packStep mult) ⟨[], [], [], 0, 0, 0⟩
  { rooms := final.rooms, windows := final.windows, doors := final.doors }

/-- The Heuristic Text Analyzer followed by the Model Synthesizer: the
deterministic fallback chain of the pipeline. -/
def heuristicModel (prompt : String) : ModelData :=
  generateModelFromAnalysis (analyzeTextRequirements prompt)

/-- Geometric footprint data of a room (independent of its connections). -/
structure Geom where
  x : ℚ
  z : ℚ
  w : ℚ
  l : ℚ
  h : ℚ
deriving Repr, DecidableEq

/-- Geometric projection of a synthesized room. -/
def geomOf (r : SynthRoom) : Geom :=
  ⟨r.x, r.z, r.width, r.length, r.height⟩

/-- Two footprints overlap when their open (x, z) rectangles intersect. -/
def geomOverlap (a b : Geom) : Prop :=
  a.x < b.x + b.w ∧ b.x < a.x + a.w ∧ a.z < b.z + b.l ∧ b.z < a.z + a.l

/-- Footprint overlap of two synthesized rooms. -/
def roomsOverlap (r s : SynthRoom) : Prop :=
  geomOverlap (geomOf r) (geomOf s)

/-- Row discipline of an already placed footprint relative to the cursor:
either it sits in the current row (same `z`, ending at least the 0.5 spacing
before the cursor, no taller than the running row height), or it belongs to a
finished row that ends at least the 0.5 spacing before the current row start. -/
def RowOk (cx cz mrh : ℚ) (g : Geom) : Prop :=
  (g.z = cz ∧ g.x + g.w ≤ cx - 1/2 ∧ g.l ≤ mrh) ∨ g.z + g.l ≤ cz - 1/2

/-- Loop invariant of the grid packer. -/
def PackInv (st : PackState) : Prop :=
  0 ≤ st.currentX ∧ 0 ≤ st.maxRowHeight ∧
  (∀ g ∈ st.rooms.map geomOf,
    (0 < g.w ∧ 0 < g.l ∧ g.h = 3) ∧ RowOk st.currentX st.currentZ st.maxRowHeight g) ∧
  (st.rooms.map geomOf).Pairwise (fun a b => ¬ geomOverlap a b)

/-- A room detected in a sketch/visual analysis (shape is loose in the JS; the
fields below are the ones `enhanceWithVisualData` and
`generatePromptFromVisuals` read). -/
structure VisRoom where
  name : Option String := none
  type : Option String := none
  width : ℚ := 0
  length : ℚ := 0
  height : ℚ := 0
  x : ℚ := 0
  y : ℚ := 0
  z : ℚ := 0
deriving Repr, DecidableEq

/-- Result of sketch analysis (`analyzeSketch`); `rooms` is present iff the
analysis object has a `rooms` array. -/
structure SketchData where
  rooms : Option (List VisRoom) := none
deriving Repr, DecidableEq

/-- Result of photo analysis; `description` is the caption text and `style`
stands for `architecturalFeatures.style`. -/
structure PhotoData where
  description : Option String := none
  style : Option String := none
deriving Repr, DecidableEq

/-- The argument record of `combineInputsWithGPT4V`. -/
structure GptInputs where
  text : String
  speechText : String
  sketchAnalysis : Option SketchData
  photoAnalysis : Option PhotoData
deriving Repr, DecidableEq

/-- Modality flags recorded in metadata. -/
structure Modalities where
  text : Bool
  speech : Bool
  sketch : Bool
  photo : Bool
deriving Repr, DecidableEq

/-- The `modelStatistics` metadata block. -/
structure ModelStats where
  roomCount : Nat
  windowCount : Nat
  doorCount : Nat
  totalArea : ℚ
  largestRoomName : Option String := none
  largestRoomArea : Option ℚ := none
deriving Repr, DecidableEq

/-- Metadata attached to a processing result (union of the fields produced by
`generateFromTextFallback`, `extractModelMetadata`, `generateFallbackModel`
and `enhanceWithVisualData`). -/
structure Metadata where
  inputModalities : Modalities
  stats : ModelStats
  generationMethod : Option String := none
  note : Option String := none
  suggestedStyle : Option String := none
  contribution : Option (ℚ × ℚ × ℚ × ℚ) := none
  visualEnhancement : Bool := false
  sketchUsed : Bool := false
  photoUsed : Bool := false
deriving Repr, DecidableEq

/-- A processing result `{modelData, metadata, rawResponse}`. -/
structure ProcResult where
  modelData : ModelData
  metadata : Metadata
  rawResponse : String
deriving Repr, DecidableEq

/-- Outcome of the Azure OpenAI text-inference call: the client may be
unconfigured, the call may reject, or it may resolve — in which case the
environment carries the model parsed from the response content together with
the raw content (`extractModelData` / JSON parsing is abstracted into the
environment, since the response is external input). -/
inductive GptOutcome where
  | unavailable
  | failedCall (msg : String)
  | success (md : ModelData) (content : String)
deriving Repr, DecidableEq

/-- Settled outcomes of the external calls made by the multimodal processor.
`sketch`/`photo` are the values seen after `Promise.allSettled`: `none` both
when the corresponding analysis rejected or timed out and when it resolved
to `null`. -/
structure ExtEnv where
  gpt : GptOutcome
  sketch : Option SketchData
  photo : Option PhotoData
deriving Repr, DecidableEq

/-- The input bundle of `processMultimodalInput`. -/
structure MMInputs where
  text : Option String := none
  sketch : Option String := none
  speech : Option String := none
  photo : Option String := none
deriving Repr, DecidableEq

/-- Sum of `width * length` over the rooms (`calculateTotalArea`). -/
def calculateTotalArea (rooms : List SynthRoom) : ℚ :=
  rooms.foldl (fun s r => s + r.width * r.length) 0

/-- The `findLargestRoom` reduce (initial accumulator is the first room, and
only a strictly larger area replaces it). -/
def findLargestRoom (rooms : List SynthRoom) : Option (String × ℚ) :=
  match rooms with
  | [] => none
  | r0 :: _ =>
    some (rooms.foldl
      (fun acc room =>
        let a := room.width * room.length
        if acc.2 < a then (room.name, a) else acc)
      (r0.name, r0.width * r0.length))

/-- The `determineSuggestedStyle` helper.  Note the JS quirk: when no photo
analysis is present the optional chain yields `undefined`, which is `!==
"unknown"`, so `undefined` (here `none`) is returned rather than "modern". -/
def determineSuggestedStyle (inputs : GptInputs) : Option String :=
  let phStyle := inputs.photoAnalysis.bind (·.style)
  if phStyle ≠ some "unknown" then phStyle else some "modern"

/-- The `analyzeSourceContribution` weight normalization. -/
def analyzeSourceContribution (inputs : GptInputs) : ℚ × ℚ × ℚ × ℚ :=
  let wT : ℚ := if inputs.text ≠ "" then 2/5 else 0
  let wSp : ℚ := if inputs.speechText ≠ "" then 1/5 else 0
  let wSk : ℚ := if inputs.sketchAnalysis.isSome then 3/10 else 0
  let wPh : ℚ := if inputs.photoAnalysis.isSome then 1/10 else 0
  let total := wT + wSp + wSk + wPh
  if 0 < total then (wT / total, wSp / total, wSk / total, wPh / total)
  else (wT, wSp, wSk, wPh)

/-- The `extractModelMetadata` helper. -/
def extractModelMetadata (md : ModelData) (inputs : GptInputs) : Metadata :=
  { inputModalities :=
      { text := inputs.text ≠ "", speech := inputs.speechText ≠ "",
        sketch := inputs.sketchAnalysis.isSome, photo := inputs.photoAnalysis.isSome },
    stats :=
      { roomCount := md.rooms.length, windowCount := md.windows.length,
        doorCount := md.doors.length, totalArea := calculateTotalArea md.rooms,
        largestRoomName := (findLargestRoom md.rooms).map Prod.fst,
        largestRoomArea := (findLargestRoom md.rooms).map Prod.snd },
    suggestedStyle := determineSuggestedStyle inputs,
    contribution := some (analyzeSourceContribution inputs) }

/-- The fixed model of `generateFallbackModel` (lines 999–1055); the JS stores
room geometry in nested `dimensions`/`position` objects, flattened here into
the uniform room record, with no `connected_to` field (`[]`). -/
def generateFallbackModel (inputs : GptInputs) : ProcResult :=
  { modelData :=
      { rooms :=
          [⟨"living room", 6, 8, 3, 0, 0, 0, []⟩,
           ⟨"kitchen", 4, 5, 3, 6, 0, 0, []⟩,
           ⟨"bedroom", 4, 5, 3, 0, 0, 8, []⟩],
        windows :=
          [⟨"living room", "north", 3/2, 6/5, 1/2⟩,
           ⟨"bedroom", "east", 6/5, 6/5, 3/10⟩],
        doors :=
          [⟨"living room", "kitchen", 1, 21/10⟩,
           ⟨"living room", "bedroom", 9/10, 21/10⟩] },
    metadata :=
      { inputModalities :=
          { text := inputs.text ≠ "", speech := inputs.speechText ≠ "",
            sketch := inputs.sketchAnalysis.isSome, photo := inputs.photoAnalysis.isSome },
        stats :=
          { roomCount := 3, windowCount := 2, doorCount := 2, totalArea := 74,
            largestRoomName := some "living room" },
        note := some "Generated using fallback model (Azure services not configured)" },
    rawResponse := "Fallback model generated due to missing Azure configuration" }

/-- The `combineInputsWithGPT4V` call: fallback model when the OpenAI client is
not configured; a thrown error when the call rejects (wrapped by the JS catch
into "GPT-4 processing failed: ..."); the parsed structured response otherwise. -/
def combineInputsWithGPT4V (env : ExtEnv) (inputs : GptInputs) :
    Except String ProcResult :=
  match env.gpt with
  | .unavailable => .ok (generateFallbackModel inputs)
  | .failedCall m => .error ("GPT-4 processing failed: " ++ m)
  | .success md content =>
    .ok { modelData := md, metadata := extractModelMetadata md inputs,
          rawResponse := content }

/-- The `generateFromTextFallback` path: Heuristic Text Analyzer followed by
the Model Synthesizer, with generation metadata. -/
def generateFromTextFallback (text : String) : ProcResult :=
  let analysis := analyzeTextRequirements text
  let modelData := generateModelFromAnalysis analysis
  { modelData := modelData,
    metadata :=
      { inputModalities := { text := true, speech := false, sketch := false, photo := false },
        stats :=
          { roomCount := modelData.rooms.length, windowCount := modelData.windows.length,
            doorCount := modelData.doors.length,
            totalArea := calculateTotalArea modelData.rooms },
        generationMethod := some "intelligent_text_parsing",
        note := some "Generated using intelligent text analysis (Azure not available)" },
    rawResponse := "Generated from text: \"" ++ takeChars 200 text ++ "...\"" }

/-- The text-only strategy `processTextOnly`: heuristic fallback when the
OpenAI client is missing, otherwise the GPT call with the heuristic fallback
substituted on any thrown error. -/
def processTextOnly (inputs : MMInputs) (env : ExtEnv) : ProcResult :=
  let textContent := jsOr inputs.text (jsOr inputs.speech "")
  match env.gpt with
  | .unavailable => generateFromTextFallback textContent
  | _ =>
    match combineInputsWithGPT4V env
        { text := textContent, speechText := jsOr inputs.speech "",
          sketchAnalysis := none, photoAnalysis := none } with
    | .ok r => r
    | .error _ => generateFromTextFallback textContent

/-- The `enhanceWithVisualData` merge: a sketch-detected room list replaces the
synthesized layout wholesale; a usable photo-detected style overrides the
style; metadata records the enhancement. -/
def enhanceWithVisualData (textResult : ProcResult) (sketchData : Option SketchData)
    (photoData : Option PhotoData) : ProcResult :=
  let rooms :=
    match sketchData with
    | some sd =>
      match sd.rooms with
      | some rs =>
        rs.map (fun r =>
          ({ name := r.name.getD ("room_" ++ toString r.x ++ "_" ++ toString r.z),
             width := r.width, length := r.length, height := r.height,
             x := r.x, y := r.y, z := r.z, connected_to := [] } : SynthRoom))
      | none => textResult.modelData.rooms
    | none => textResult.modelData.rooms
  let style :=
    match photoData with
    | some pd =>
      match pd.style with
      | some s => if s ≠ "" ∧ s ≠ "unknown" then some s else textResult.modelData.style
      | none => textResult.modelData.style
    | none => textResult.modelData.style
  { textResult with
    modelData := { textResult.modelData with rooms := rooms, style := style },
    metadata :=
      { textResult.metadata with
        visualEnhancement := true,
        sketchUsed := sketchData.isSome,
        photoUsed := photoData.isSome } }

/-- The parallel strategy `processTextWithVisualsParallel`: await the text
result first, then enhance with whichever visual analyses settled
successfully (`Promise.allSettled` maps a rejected or timed-out branch to
`null`, and an absent input is `Promise.resolve(null)`). -/
def processTextWithVisualsParallel (inputs : MMInputs) (env : ExtEnv) : ProcResult :=
  let textResult := processTextOnly inputs env
  let sketchResult := if truthy inputs.sketch then env.sketch else none
  let photoResult := if truthy inputs.photo then env.photo else none
  if sketchResult.isSome || photoResult.isSome then
    enhanceWithVisualData textResult sketchResult photoResult
  else
    textResult

/-- The `generatePromptFromVisuals` prompt synthesis. -/
def generatePromptFromVisuals (sketchData : Option SketchData)
    (photoData : Option PhotoData) : String :=
  let base := "Generate an architectural model based on visual analysis: "
  let withSketch :=
    match sketchData with
    | some sd =>
      match sd.rooms with
      | some rs =>
        let names := rs.map (fun r => (r.name.getD (r.type.getD "")))
        base ++ "Sketch shows rooms: " ++ String.intercalate ", " names ++ ". "
      | none => base
    | none => base
  let withPhoto :=
    match photoData with
    | some pd =>
      (match pd.description with
       | some d => withSketch ++ "Photo analysis: " ++ d ++ ". "
       | none => withSketch) ++
      "Architectural style: " ++ (pd.style.getD "undefined") ++ ". "
    | none => withSketch
  withPhoto

/-- The visual-only strategy `processVisualsOnly`: throws when no visual input
could be processed, otherwise synthesizes a prompt and runs the GPT
combination (whose thrown errors propagate — there is no catch here). -/
def processVisualsOnly (inputs : MMInputs) (env : ExtEnv) : Except String ProcResult :=
  let sketch := if truthy inputs.sketch then env.sketch else none
  let photo := if truthy inputs.photo then env.photo else none
  if sketch.isNone && photo.isNone then
    .error "Failed to process any visual inputs"
  else
    combineInputsWithGPT4V env
      { text := generatePromptFromVisuals sketch photo, speechText := "",
        sketchAnalysis := sketch, photoAnalysis := photo }

/-- The strategy dispatch `processInputsOptimized`. -/
def processInputsOptimized (inputs : MMInputs) (env : ExtEnv) :
    Except String ProcResult :=
  let hasText := truthy inputs.text || truthy inputs.speech
  let hasVisuals := truthy inputs.sketch || truthy inputs.photo
  if hasText && hasVisuals then .ok (processTextWithVisualsParallel inputs env)
  else if hasText && !hasVisuals then .ok (processTextOnly inputs env)
  else if !hasText && hasVisuals then processVisualsOnly inputs env
  else .error "No valid inputs provided"

/-- The entry point `processMultimodalInput` (content moderation is disabled in
the source and skipped). -/
def processMultimodalInput (inputs : MMInputs) (env : ExtEnv) :
    Except String ProcResult :=
  processInputsOptimized inputs env

/-- Settled outcome of one agent call raced against its 5-second deadline:
the promise may resolve normally, resolve carrying an `error` field, reject,
or lose the race (`Promise.race` rejecting with the stage timeout message). -/
inductive StageOutcome (α : Type) where
  | resolved (a : α)
  | resolvedError (msg : String)
  | failed (msg : String)
  | timedOut
deriving Repr, DecidableEq

/-- Outcomes of the three agent calls plus the 15-second overall race of
`processDesignRequest`. -/
structure AgentEnv where
  interpreter : StageOutcome String
  designer : StageOutcome ModelData
  renderer : StageOutcome String
  overallTimedOut : Bool
deriving Repr, DecidableEq

/-- The record returned by `executeAgentWorkflow` on success. -/
structure AgentResult where
  requirements : String
  modelData : ModelData
  code : Option String
  originalPrompt : String
  sketchAnalysisPerformed : Bool
deriving Repr, DecidableEq

/-- The three-stage workflow of `agent-orchestrator.ts` (lines 33–98).  The
interpreter and designer results are checked for an `error` field and
re-thrown; the renderer result is not checked (its `code` is read directly,
`none` when the renderer resolved with an error object).  Every throw is
wrapped by the catch into "Agent Orchestrator failed: ...". -/
def executeAgentWorkflow (prompt : String) (sketchData : Option String)
    (env : AgentEnv) : Except String AgentResult :=
  let wrap := fun (m : String) => "Agent Orchestrator failed: " ++ m
  match env.interpreter with
  | .timedOut => .error (wrap "Interpreter timeout")
  | .failed m => .error (wrap m)
  | .resolvedError m => .error (wrap ("Interpreter agent failed: " ++ m))
  | .resolved requirements =>
    match env.designer with
    | .timedOut => .error (wrap "Designer timeout")
    | .failed m => .error (wrap m)
    | .resolvedError m => .error (wrap ("Designer agent failed: " ++ m))
    | .resolved design =>
      match env.renderer with
      | .timedOut => .error (wrap "Renderer timeout")
      | .failed m => .error (wrap m)
      | .resolvedError _ =>
        .ok { requirements := requirements, modelData := design, code := none,
              originalPrompt := prompt, sketchAnalysisPerformed := truthy sketchData }
      | .resolved code =>
        .ok { requirements := requirements, modelData := design, code := some code,
              originalPrompt := prompt, sketchAnalysisPerformed := truthy sketchData }

/-- The `processDesignRequest` entry point: the workflow raced against the 15-second overall
deadline. -/
def processDesignRequest (prompt : String) (sketchData : Option String)
    (env : AgentEnv) : Except String AgentResult :=
  if env.overallTimedOut then .error "Agent processing timeout exceeded"
  else executeAgentWorkflow prompt sketchData env

/-- The `processDesignRequestWithTracing` wrapper adds only timing/logging around
`processDesignRequest` and rethrows its errors unchanged. -/
def processDesignRequestWithTracing (prompt : String) (sketchData : Option String)
    (env : AgentEnv) : Except String AgentResult :=
  processDesignRequest prompt sketchData env

/-- True when some pipeline stage timed out or errored: the overall deadline
elapsed, the interpreter or designer call timed out / rejected / reported an
error, or the renderer call timed out / rejected.  (A renderer that resolves
carrying an error object is not an aborted call: the source reads its `code`
without checking.) -/
def stageAborted (env : AgentEnv) : Bool :=
  let aborts := fun {α : Type} (o : StageOutcome α) =>
    match o with
    | .resolved _ => false
    | .resolvedError _ => true
    | .failed _ => true
    | .timedOut => true
  let hardAborts := fun {α : Type} (o : StageOutcome α) =>
    match o with
    | .resolved _ => false
    | .resolvedError _ => false
    | .failed _ => true
    | .timedOut => true
  env.overallTimedOut || aborts env.interpreter || aborts env.designer ||
    hardAborts env.renderer

/-- The value stored as a job's `result`: every return site of the llm-service
`generateCadModel` carries a model and a code string (the metadata it also
returns is not inspected by any property). -/
structure CadResult where
  modelData : ModelData
  code : String
deriving Repr, DecidableEq

/-- JavaScript `v || undefined` for an optional string: absent/empty becomes
absent. -/
def jsUndef (o : Option String) : Option String :=
  if truthy o then o else none

/-- The `generateMockCode` template of the llm-service module (embedded in
`src/README_SETUP.md`), abbreviated to its prompt-dependent header line; the
remainder is a fixed Three.js boilerplate that no property inspects. -/
def generateMockCode (prompt : String) : String :=
  "// Generated Three.js code for: \"" ++
    (if prompt = "" then "Fallback model" else prompt) ++ "\""

/-- The llm-service `generateCodeFromModel` template, abbreviated to its
room-name-dependent header line (the body interpolates the rooms and a
`Math.random()` color, and no property inspects the string).  The JS guard
`!modelData.rooms` fires only for an absent rooms array, which this embedding
cannot represent, so the header is produced unconditionally. -/
def generateCodeFromModelLLM (md : ModelData) : String :=
  "// Generated Three.js code for: " ++
    String.intercalate ", " (md.rooms.map SynthRoom.name)

/-- The fixed model returned by the llm-service `generateFallbackCadModel`
(`src/README_SETUP.md` lines 701–749): a hardcoded living(5×7)/kitchen(4×4)
layout, independent of the prompt. -/
def generateFallbackCadModelData : ModelData :=
  { rooms :=
      [⟨"living", 5, 7, 3, 0, 0, 0, ["kitchen", "hallway"]⟩,
       ⟨"kitchen", 4, 4, 3, 5, 0, 0, ["living"]⟩],
    windows := [⟨"living", "south", 2, 3/2, 1/2⟩],
    doors := [⟨"living", "kitchen", 6/5, 21/10⟩] }

/-- The llm-service `generateFallbackCadModel`: the fixed model plus the mock
code for the prompt. -/
def generateFallbackCadModel (prompt : String) (sketchData : Option String) :
    CadResult :=
  { modelData := generateFallbackCadModelData, code := generateMockCode prompt }

/-- The llm-service `generateCadModel` (`src/README_SETUP.md` lines 612–694):
when a non-text modality is present, try the optimized multimodal processor
first and return its model directly when it has at least one room (its
`code` field is undefined on processor results, so the code is generated from
the model); a thrown processor error is swallowed, and a room-less result
upgrades the prompt to the processor's raw response.  Then run the three-stage
agent pipeline; the surrounding catch replaces any escaping error — in
particular any stage timeout or failure — by the fixed
`generateFallbackCadModel` result.  Every branch returns, so the function
never throws. -/
def generateCadModel (prompt : String) (sketchData speechData photoData : Option String)
    (env : ExtEnv) (aenv : AgentEnv) : CadResult :=
  let step2 := fun (prompt2 : String) =>
    match processDesignRequest prompt2 sketchData aenv with
    | .ok result =>
      ({ modelData := result.modelData,
         code := jsOr result.code (generateCodeFromModelLLM result.modelData) } : CadResult)
    | .error _ => generateFallbackCadModel prompt2 sketchData
  if truthy sketchData || truthy speechData || truthy photoData then
    match processMultimodalInput
        { text := some prompt, sketch := jsUndef sketchData,
          speech := jsUndef speechData, photo := jsUndef photoData } env with
    | .ok pr =>
      if pr.modelData.rooms.length > 0 then
        { modelData := pr.modelData, code := generateCodeFromModelLLM pr.modelData }
      else
        step2 (if pr.rawResponse ≠ "" then pr.rawResponse else prompt)
    | .error _ => step2 prompt
  else
    step2 prompt

/-- Job lifecycle states of the cad-generator route. -/
inductive JobStatus where
  | queued
  | processing
  | analyzing_inputs
  | generating_model
  | completed
  | failed
deriving Repr, DecidableEq

/-- One record of the in-memory job map (`jobs.set` payloads). -/
structure JobRecord where
  status : JobStatus
  progress : Option Nat
  result : Option CadResult
  error : Option String
  startTime : Option Nat
deriving Repr, DecidableEq

/-- The sequence of `jobs.set` writes performed by `processCADJob` after the
initial queued record, given the outcome of the awaited `generateCadModel`
call: processing/20, analyzing_inputs/40, generating_model/70, then either
completed/100 with the result, or failed with the error message and no
progress field. -/
def jobWrites (t0 : Nat) (outcome : Except String CadResult) : List JobRecord :=
  [⟨.processing, some 20, none, none, some t0⟩,
   ⟨.analyzing_inputs, some 40, none, none, some t0⟩,
   ⟨.generating_model, some 70, none, none, some t0⟩] ++
  (match outcome with
   | .ok r => [⟨.completed, some 100, some r, none, some t0⟩]
   | .error e => [⟨.failed, none, none, some e, some t0⟩])

/-- The full write history of one job's record, from the queued record written
by `POST` through the terminal write (successive `GET` polls observe a
monotone sampling of this sequence, because each poll sees the latest write). -/
def cadJobWriteHistory (t0 : Nat) (outcome : Except String CadResult) :
    List JobRecord :=
  ⟨.queued, some 0, none, none, some t0⟩ :: jobWrites t0 outcome

/-- The write history of a job driven by `processCADJob` on the given inputs
and external-call outcomes (`generateCadModel` is total, so the awaited call
always resolves and the history takes the `.ok` branch; the failed branch of
`jobWrites` remains reachable only from a defect-class error hitting the
catch of `processCADJob`). -/
def cadJobHistory (t0 : Nat) (prompt : String)
    (sketchData speechData photoData : Option String) (env : ExtEnv)
    (aenv : AgentEnv) : List JobRecord :=
  cadJobWriteHistory t0
    (.ok (generateCadModel prompt sketchData speechData photoData env aenv))

/-- The in-memory job map, as an association list keyed by job id. -/
def JobStore := List (String × JobRecord)

/-- The `jobs.set` operation: replace the record under an existing key, else append. -/
def storeSet : JobStore → String → JobRecord → JobStore
  | [], id, r => [(id, r)]
  | (k, v) :: rest, id, r =>
    if k = id then (id, r) :: rest else (k, v) :: storeSet rest id r

/-- The `jobs.get` lookup. -/
def storeGet : JobStore → String → Option JobRecord
  | [], _ => none
  | (k, v) :: rest, id => if k = id then some v else storeGet rest id

/-- The terminal completion write of `processCADJob` (route lines 116–121),
read as a store operation: status completed, progress 100, the result, and
the preserved start time.  Unconditional `jobs.set` — no terminal guard. -/
def completeJob (st : JobStore) (id : String) (result : CadResult) : JobStore :=
  storeSet st id
    { status := .completed, progress := some 100, result := some result,
      error := none, startTime := (storeGet st id).bind (·.startTime) }

/-- The terminal failure write of `processCADJob` (route lines 131–135), read
as a store operation: status failed, no progress, the error message, and the
preserved start time.  Unconditional `jobs.set` — no terminal guard. -/
def failJob (st : JobStore) (id : String) (error : String) : JobStore :=
  storeSet st id
    { status := .failed, progress := none, result := none,
      error := some error, startTime := (storeGet st id).bind (·.startTime) }

/-- The request body of the cad-generator `POST`. -/
structure CadBody where
  prompt : Option String := none
  sketchData : Option String := none
  speechData : Option String := none
  photoData : Option String := none
deriving Repr, DecidableEq

/-- Response of the cad-generator `POST`. -/
inductive CadPostResponse where
  | accepted (jobId : String) (status : String)
  | rejected (status : Nat) (error : String)
deriving Repr, DecidableEq

/-- The cad-generator `POST` handler (route lines 15–61): reject with 400 when
no input field is truthy, otherwise create the queued job record and return
the fresh job id (the background task that will append the `jobWrites` is
spawned without awaiting). -/
def cadPOST (body : CadBody) (st : JobStore) (newId : String) (now : Nat) :
    CadPostResponse × JobStore :=
  if !truthy body.prompt && !truthy body.sketchData && !truthy body.speechData &&
      !truthy body.photoData then
    (.rejected 400 "At least one input type is required", st)
  else
    (.accepted newId "queued",
     storeSet st newId ⟨.queued, some 0, none, none, some now⟩)

/-- Response of the multimodal-processor `POST`. -/
inductive ApiResponse where
  | success (modelData : ModelData) (code : Option String) (usedAgentFallback : Bool)
  | failure (status : Nat) (error : String) (details : Option String)
deriving Repr, DecidableEq

/-- The TypeError thrown by `this.generateCodeFromModel(...)` on the fast
path: the handler is a module-scope function, so `this` is undefined there
(the exact engine wording varies; only the fact that the branch throws is
used). -/
def thisUndefinedTypeError : String :=
  "TypeError: this is undefined, so this.generateCodeFromModel cannot be read"

/-- The multimodal-processor `POST` handler (route lines 50–129): 400 on empty
input; run the fast processor; if it produced a model with at least one room,
the source then evaluates `this.generateCodeFromModel(...)` — which throws,
because `this` is undefined in module scope — so the surrounding catch turns
the fast-path success into a 500 response; only a room-less model reaches the
agent-orchestrator fallback. -/
def multimodalPOST (body : MMInputs) (env : ExtEnv) (aenv : AgentEnv) : ApiResponse :=
  if !truthy body.text && !truthy body.sketch && !truthy body.speech &&
      !truthy body.photo then
    .failure 400 "At least one input type (text, sketch, speech, or photo) is required" none
  else
    match processMultimodalInput body env with
    | .error e => .failure 500 "Failed to process multimodal input" (some e)
    | .ok pr =>
      if pr.modelData.rooms.length > 0 then
        .failure 500 "Failed to process multimodal input" (some thisUndefinedTypeError)
      else
        let agentPrompt :=
          if pr.rawResponse ≠ "" then pr.rawResponse
          else jsOr body.text "Generate a building"
        match processDesignRequestWithTracing agentPrompt body.sketch aenv with
        | .ok ar => .success ar.modelData ar.code true
        | .error e => .failure 500 "Failed to process multimodal input" (some e)

/-- The fixed model returned by `generateQuickModel` of
`quick-generate/route.ts` (lines 29–71).  Its `prompt` parameter is unused in
the source. -/
def generateQuickModel (prompt : String) : ModelData :=
  { rooms :=
      [⟨"living_room", 6, 8, 3, 0, 0, 0, ["kitchen"]⟩,
       ⟨"kitchen", 4, 6, 3, 6, 0, 0, ["living_room"]⟩],
    windows := [⟨"living_room", "south", 2, 3/2, 1/2⟩],
    doors := [⟨"living_room", "kitchen", 1, 21/10⟩] }

/-- The fixed Three.js snippet returned by `generateQuickCode` (braces written
as escapes; the content is never inspected by any property). -/
def generateQuickCode : String :=
  "// Quick-generated Three.js code\nimport * as THREE from three;\n" ++
  "const scene = new THREE.Scene();\n" ++
  "const camera = new THREE.PerspectiveCamera(75, window.innerWidth / window.innerHeight, 0.1, 1000);\n" ++
  "const renderer = new THREE.WebGLRenderer();\n" ++
  "const roomGeometry = new THREE.BoxGeometry(6, 3, 8);\n" ++
  "const roomMaterial = new THREE.MeshBasicMaterial(\x7b color: 0xcccccc, wireframe: true \x7d);\n" ++
  "const room = new THREE.Mesh(roomGeometry, roomMaterial);\nscene.add(room);\n" ++
  "camera.position.set(10, 5, 10);\nrenderer.setSize(window.innerWidth, window.innerHeight);\n" ++
  "document.body.appendChild(renderer.domElement);\n" ++
  "function animate() \x7b\n    requestAnimationFrame(animate);\n    renderer.render(scene, camera);\n\x7d\nanimate();"

/-- Response of the quick-generate `POST`. -/
structure QuickResponse where
  modelData : ModelData
  code : String
  note : String
deriving Repr, DecidableEq

/-- The quick-generate `POST` handler (route lines 3–27): a synchronous
response built from `generateQuickModel(prompt || "Simple house")`. -/
def quickPOST (prompt : Option String) : QuickResponse :=
  { modelData := generateQuickModel (jsOr prompt "Simple house"),
    code := generateQuickCode,
    note := "Generated using quick fallback method" }

/-- Room count of a processor outcome (0 for a thrown error), used to state
the fast-path branch condition of the multimodal route. -/
def fastPathRoomCount (e : Except String ProcResult) : Nat :=
  match e with
  | .ok pr => pr.modelData.rooms.length
  | .error _ => 0

/-- A sample five-room requirement set used to instantiate universal
theorems. -/
def sampleAnalysis : Analysis :=
  { buildingType := "residential",
    rooms := [⟨"living", "living_room"⟩, ⟨"kitchen", "kitchen"⟩,
              ⟨"bedroom", "bedroom"⟩, ⟨"bathroom", "bathroom"⟩,
              ⟨"garage", "garage"⟩],
    style := "modern", size := "large", floors := 1 }

/-! ## Lemmas about the grid packer -/

theorem lastRoom?_eq_none : ∀ {l : List SynthRoom}, lastRoom? l = none → l = []
  | [], _ => rfl
  | [_], h => by simp [lastRoom?] at h
  | _ :: r :: rs, h => by
    simp only [lastRoom?] at h
    exact absurd (lastRoom?_eq_none h) (by simp)

theorem lastRoom?_decomp : ∀ {l : List SynthRoom} {p : SynthRoom},
    lastRoom? l = some p → l.dropLast ++ [p] = l
  | [], _, h => by simp [lastRoom?] at h
  | [r], p, h => by
    simp only [lastRoom?, Option.some.injEq] at h
    simp [h]
  | a :: r :: rs, p, h => by
    simp only [lastRoom?] at h
    have ih := lastRoom?_decomp (l := r :: rs) h
    simpa [List.dropLast] using congrArg (a :: ·) ih

theorem placeRoom_rooms_map (st : PackState) (req : RoomReq)
    (width length cx cz mrh : ℚ) :
    (placeRoom st req width length cx cz mrh).rooms.map geomOf =
      st.rooms.map geomOf ++ [⟨cx, cz, width, length, 3⟩] := by
  unfold placeRoom
  cases h : lastRoom? st.rooms with
  | none => simp [lastRoom?_eq_none h, geomOf]
  | some prev =>
    have hd := lastRoom?_decomp h
    conv_rhs => rw [← hd]
    simp [geomOf]

theorem placeRoom_currentX (st : PackState) (req : RoomReq)
    (width length cx cz mrh : ℚ) :
    (placeRoom st req width length cx cz mrh).currentX = cx + width + 1/2 := by
  unfold placeRoom
  cases lastRoom? st.rooms <;> rfl

theorem placeRoom_currentZ (st : PackState) (req : RoomReq)
    (width length cx cz mrh : ℚ) :
    (placeRoom st req width length cx cz mrh).currentZ = cz := by
  unfold placeRoom
  cases lastRoom? st.rooms <;> rfl

theorem placeRoom_maxRowHeight (st : PackState) (req : RoomReq)
    (width length cx cz mrh : ℚ) :
    (placeRoom st req width length cx cz mrh).maxRowHeight = max mrh length := by
  unfold placeRoom
  cases lastRoom? st.rooms <;> rfl

theorem jsRound10_ge {q : ℚ} (h : 7/5 ≤ q) : 7/5 ≤ jsRound10 q := by
  unfold jsRound10
  have h14 : (14 : ℤ) ≤ (q * 10 + 1/2).floor := by
    rw [Rat.le_floor]
    push_cast
    linarith
  have h14q : (14 : ℚ) ≤ ((q * 10 + 1/2).floor : ℚ) := by exact_mod_cast h14
  linarith

theorem baseRoomSize_ge (t : String) :
    2 ≤ (baseRoomSize t).1 ∧ 2 ≤ (baseRoomSize t).2 := by
  unfold baseRoomSize
  split_ifs <;> norm_num

theorem sizeMultiplier_ge (s : String) : 7/10 ≤ sizeMultiplier s := by
  unfold sizeMultiplier
  split_ifs <;> norm_num

theorem packWidth_pos (t : String) {mult : ℚ} (hm : 7/10 ≤ mult) :
    0 < jsRound10 ((baseRoomSize t).1 * mult) := by
  have hb := (baseRoomSize_ge t).1
  have hmul : 2 * (7/10 : ℚ) ≤ (baseRoomSize t).1 * mult :=
    mul_le_mul hb hm (by norm_num) (le_trans (by norm_num) hb)
  have := jsRound10_ge (q := (baseRoomSize t).1 * mult) (by linarith)
  linarith

theorem packLength_pos (t : String) {mult : ℚ} (hm : 7/10 ≤ mult) :
    0 < jsRound10 ((baseRoomSize t).2 * mult) := by
  have hb := (baseRoomSize_ge t).2
  have hmul : 2 * (7/10 : ℚ) ≤ (baseRoomSize t).2 * mult :=
    mul_le_mul hb hm (by norm_num) (le_trans (by norm_num) hb)
  have := jsRound10_ge (q := (baseRoomSize t).2 * mult) (by linarith)
  linarith

theorem placeRoom_inv (st : PackState) (req : RoomReq)
    {width length cx cz mrh : ℚ}
    (hw : 0 < width) (hl : 0 < length) (hcx : 0 ≤ cx) (hmrh : 0 ≤ mrh)
    (hold : ∀ g ∈ st.rooms.map geomOf,
      (0 < g.w ∧ 0 < g.l ∧ g.h = 3) ∧ RowOk cx cz mrh g)
    (hpair : (st.rooms.map geomOf).Pairwise (fun a b => ¬ geomOverlap a b)) :
    PackInv (placeRoom st req width length cx cz mrh) := by
  have hmap := placeRoom_rooms_map st req width length cx cz mrh
  refine ⟨?_, ?_, ?_, ?_⟩
  · rw [placeRoom_currentX]; linarith
  · rw [placeRoom_maxRowHeight]; exact le_trans hmrh (le_max_left _ _)
  · rw [hmap, placeRoom_currentX, placeRoom_currentZ, placeRoom_maxRowHeight]
    intro g hg
    rcases List.mem_append.mp hg with hgold | hgnew
    · obtain ⟨hpos, hrow⟩ := hold g hgold
      refine ⟨hpos, ?_⟩
      rcases hrow with ⟨hz, hxe, hlm⟩ | hprev
      · exact Or.inl ⟨hz, by linarith, le_trans hlm (le_max_left _ _)⟩
      · exact Or.inr hprev
    · have hge : g = ⟨cx, cz, width, length, 3⟩ := by simpa using hgnew
      subst hge
      exact ⟨⟨hw, hl, rfl⟩, Or.inl ⟨rfl, by linarith, le_max_right _ _⟩⟩
  · rw [hmap]
    rw [List.pairwise_append]
    refine ⟨hpair, List.pairwise_singleton _ _, ?_⟩
    intro a ha b hb
    have hbe : b = ⟨cx, cz, width, length, 3⟩ := by simpa using hb
    subst hbe
    obtain ⟨_, hrow⟩ := hold a ha
    intro hov
    rcases hrow with ⟨hz, hxe, _⟩ | hprev
    · have : cx < a.x + a.w := hov.2.1
      linarith
    · have : cz < a.z + a.l := hov.2.2.2
      linarith

theorem packStep_inv {mult : ℚ} (hm : 7/10 ≤ mult) (st : PackState)
    (req : RoomReq) (h : PackInv st) : PackInv (packStep mult st req) := by
  obtain ⟨h1, h2, h3, h4⟩ := h
  have hw := packWidth_pos req.type hm
  have hl := packLength_pos req.type hm
  unfold packStep
  dsimp only
  split
  · refine placeRoom_inv st req hw hl le_rfl le_rfl ?_ h4
    intro g hg
    obtain ⟨hpos, hrow⟩ := h3 g hg
    refine ⟨hpos, Or.inr ?_⟩
    rcases hrow with ⟨hz, _, hlm⟩ | hprev
    · rw [hz]
      linarith
    · linarith
  · exact placeRoom_inv st req hw hl h1 h2 h3 h4

theorem packFold_inv {mult : ℚ} (hm : 7/10 ≤ mult) :
    ∀ (rs : List RoomReq) (st : PackState), PackInv st →
      PackInv (rs.foldl (packStep mult) st)
  | [], st, h => h
  | r :: rs, st, h => packFold_inv hm rs _ (packStep_inv hm st r h)

theorem generateModel_inv (a : Analysis) :
    (∀ r ∈ (generateModelFromAnalysis a).rooms,
      0 < r.width ∧ 0 < r.length ∧ 0 < r.height) ∧
    (generateModelFromAnalysis a).rooms.Pairwise (fun r s => ¬ roomsOverlap r s) := by
  have hm := sizeMultiplier_ge a.size
  have hinit : PackInv ⟨[], [], [], 0, 0, 0⟩ :=
    ⟨le_rfl, le_rfl, by simp, by simp⟩
  have h := packFold_inv hm a.rooms _ hinit
  obtain ⟨_, _, h3, h4⟩ := h
  constructor
  · intro r hr
    have hmem : geomOf r ∈ ((a.rooms.foldl (packStep (sizeMultiplier a.size))
        ⟨[], [], [], 0, 0, 0⟩).rooms.map geomOf) := List.mem_map_of_mem _ hr
    obtain ⟨⟨hw, hl, hh⟩, _⟩ := h3 _ hmem
    refine ⟨hw, hl, ?_⟩
    have : r.height = 3 := hh
    rw [this]
    norm_num
  · have := (List.pairwise_map (f := geomOf)).mp h4
    exact this

/-! ## Claim theorems -/

/-- C1: for every input analysis (any list of room requirements and any size
class in small/medium/large), the grid packer produces rooms with strictly
positive width, length and height, and no two rooms have overlapping (x, z)
footprints. -/
theorem packer_rooms_positive_and_disjoint (a : Analysis)
    (h : a.size = "small" ∨ a.size = "medium" ∨ a.size = "large") :
    (∀ r ∈ (generateModelFromAnalysis a).rooms,
      0 < r.width ∧ 0 < r.length ∧ 0 < r.height) ∧
    (generateModelFromAnalysis a).rooms.Pairwise (fun r s => ¬ roomsOverlap r s) :=
  generateModel_inv a

/-- Witness for C1 at a concrete five-room large-size analysis. -/
theorem packer_rooms_positive_and_disjoint_witness :
    (sampleAnalysis.size = "small" ∨ sampleAnalysis.size = "medium" ∨
      sampleAnalysis.size = "large") ∧
    ((∀ r ∈ (generateModelFromAnalysis sampleAnalysis).rooms,
        0 < r.width ∧ 0 < r.length ∧ 0 < r.height) ∧
      (generateModelFromAnalysis sampleAnalysis).rooms.Pairwise
        (fun r s => ¬ roomsOverlap r s)) :=
  ⟨Or.inr (Or.inr rfl),
   packer_rooms_positive_and_disjoint sampleAnalysis (Or.inr (Or.inr rfl))⟩

theorem processDesignRequest_error_of_aborted (prompt : String)
    (sketchData : Option String) (env : AgentEnv)
    (h : stageAborted env = true) :
    ∃ e, processDesignRequest prompt sketchData env = .error e := by
  unfold processDesignRequest executeAgentWorkflow
  unfold stageAborted at h
  rcases env with ⟨i, d, r, ov⟩
  dsimp only at h ⊢
  cases ov
  · cases i <;> cases d <;> cases r <;> simp_all
  · simp

/-- C2 counterexample: with text-only input and every agent call timing out,
the pipeline aborts and `generateCadModel` returns the fixed
`generateFallbackCadModel` living/kitchen model — which is not the Heuristic
Text Analyzer + Model Synthesizer result for the prompt, refuting the claimed
recovery target (the no-failed-job half of the claim does hold, see the
amended theorem). -/
theorem pipeline_fallback_not_heuristic_counterexample :
    stageAborted ⟨.timedOut, .timedOut, .timedOut, false⟩ = true ∧
    (generateCadModel "Create a simple 2-bedroom house" none none none
        ⟨.unavailable, none, none⟩
        ⟨.timedOut, .timedOut, .timedOut, false⟩).modelData =
      generateFallbackCadModelData ∧
    (generateCadModel "Create a simple 2-bedroom house" none none none
        ⟨.unavailable, none, none⟩
        ⟨.timedOut, .timedOut, .timedOut, false⟩).modelData ≠
      heuristicModel "Create a simple 2-bedroom house" := by
  refine ⟨rfl, rfl, ?_⟩
  with_unfolding_all decide

/-- C2 amended: whenever a pipeline stage times out or errors, the
orchestration recovers locally by substituting a fallback — but the fallback
actually returned is the fixed `generateFallbackCadModel` living/kitchen
model (not the Heuristic Text Analyzer + Model Synthesizer result): on
text-only input the aborted pipeline always yields exactly that fixed result.
Such an error never causes the job to reach the failed state:
`generateCadModel` is total, so the job's status history always ends in
`completed` and never contains `failed`. -/
theorem upstream_errors_recovered_locally (prompt : String)
    (sketchData speechData photoData : Option String) (env : ExtEnv)
    (aenv : AgentEnv) (h : stageAborted aenv = true) :
    (∀ t0 : Nat,
      (cadJobHistory t0 prompt sketchData speechData photoData env aenv).map
          JobRecord.status =
        [.queued, .processing, .analyzing_inputs, .generating_model, .completed]) ∧
    (truthy sketchData = false → truthy speechData = false →
      truthy photoData = false →
      generateCadModel prompt sketchData speechData photoData env aenv =
        generateFallbackCadModel prompt sketchData) := by
  constructor
  · intro t0
    rfl
  · intro h1 h2 h3
    obtain ⟨e, he⟩ := processDesignRequest_error_of_aborted prompt sketchData aenv h
    unfold generateCadModel
    rw [h1, h2, h3]
    dsimp only
    rw [he]
    simp

/-- Witness for C2 (amended): text-only input, all three agent calls time
out. -/
theorem upstream_errors_recovered_locally_witness :
    stageAborted ⟨.timedOut, .timedOut, .timedOut, false⟩ = true ∧
    (cadJobHistory 0 "a modern house" none none none ⟨.unavailable, none, none⟩
        ⟨.timedOut, .timedOut, .timedOut, false⟩).map JobRecord.status =
      [.queued, .processing, .analyzing_inputs, .generating_model, .completed] ∧
    generateCadModel "a modern house" none none none ⟨.unavailable, none, none⟩
        ⟨.timedOut, .timedOut, .timedOut, false⟩ =
      generateFallbackCadModel "a modern house" none :=
  ⟨rfl,
   (upstream_errors_recovered_locally "a modern house" none none none
      ⟨.unavailable, none, none⟩ ⟨.timedOut, .timedOut, .timedOut, false⟩ rfl).1 0,
   (upstream_errors_recovered_locally "a modern house" none none none
      ⟨.unavailable, none, none⟩ ⟨.timedOut, .timedOut, .timedOut, false⟩ rfl).2
     rfl rfl rfl⟩

/-- C3: in the parallel strategy, when the visual branch fails or times out
(both sketch and photo outcomes settle to null), the final result is exactly
the text-only result — no layout or style override is applied. -/
theorem visual_branch_failure_keeps_text_result (inputs : MMInputs) (env : ExtEnv)
    (hs : env.sketch = none) (hp : env.photo = none) :
    processTextWithVisualsParallel inputs env = processTextOnly inputs env := by
  unfold processTextWithVisualsParallel
  rw [hs, hp]
  simp

/-- Witness for C3: text plus a sketch whose analysis timed out. -/
theorem visual_branch_failure_keeps_text_result_witness :
    (⟨GptOutcome.unavailable, none, none⟩ : ExtEnv).sketch = none ∧
    (⟨GptOutcome.unavailable, none, none⟩ : ExtEnv).photo = none ∧
    processTextWithVisualsParallel
        ⟨some "a house from this sketch", some "sketch-data", none, none⟩
        ⟨GptOutcome.unavailable, none, none⟩ =
      processTextOnly ⟨some "a house from this sketch", some "sketch-data", none, none⟩
        ⟨GptOutcome.unavailable, none, none⟩ :=
  ⟨rfl, rfl, visual_branch_failure_keeps_text_result _ _ rfl rfl⟩

/-- C4 counterexample: for the input "Create a simple 2-bedroom house" the
heuristic analyzer extracts exactly the two bedroom entries and nothing else
(the default living/kitchen/bathroom set is substituted only when zero rooms
are extracted), so the synthesized model has 2 rooms — not at least 5 — and
the claimed requirement set and room count are wrong. -/
theorem scenarioA_two_bedrooms_only :
    (analyzeTextRequirements "Create a simple 2-bedroom house").rooms =
      [⟨"bedroom", "bedroom1"⟩, ⟨"bedroom", "bedroom2"⟩] ∧
    ¬ (5 ≤ (heuristicModel "Create a simple 2-bedroom house").rooms.length) := by
  constructor
  · decide
  · with_unfolding_all decide

/-- C4 amended: for "Create a simple 2-bedroom house" the heuristic path
yields exactly 2 bedroom entries (no defaults, since defaults require zero
extracted rooms); the synthesized model has exactly those 2 rooms, mutually
connected, with exactly one door between the consecutive pair. -/
theorem scenarioA_amended :
    (heuristicModel "Create a simple 2-bedroom house").rooms.map SynthRoom.name =
      ["bedroom1", "bedroom2"] ∧
    (heuristicModel "Create a simple 2-bedroom house").rooms.map
        SynthRoom.connected_to = [["bedroom2"], ["bedroom1"]] ∧
    (heuristicModel "Create a simple 2-bedroom house").doors =
      [⟨"bedroom1", "bedroom2", 9/10, 21/10⟩] := by
  with_unfolding_all decide

/-- C5: the Heuristic Text Analyzer is a total function (this Lean embedding
is total by construction, as is the TypeScript, which throws nowhere) and for
every input string: the room list is never empty, building type defaults to
residential when no commercial/hospitality keyword occurs, size defaults to
medium, style defaults to modern, and floor count defaults to 1 when the
floor pattern does not match. -/
theorem heuristic_analyzer_total_with_defaults (text : String) :
    (analyzeTextRequirements text).rooms ≠ [] ∧
    (hasCommercialKeyword (lowerOf text) = false →
      hasHospitalityKeyword (lowerOf text) = false →
      (analyzeTextRequirements text).buildingType = "residential") ∧
    (hasLargeKeyword (lowerOf text) = false →
      hasSmallKeyword (lowerOf text) = false →
      (analyzeTextRequirements text).size = "medium") ∧
    (hasModernKeyword (lowerOf text) = false →
      hasTraditionalKeyword (lowerOf text) = false →
      hasIndustrialKeyword (lowerOf text) = false →
      (analyzeTextRequirements text).style = "modern") ∧
    (scanFirst floorMatchAt (lowerOf text) = none →
      (analyzeTextRequirements text).floors = 1) := by
  unfold analyzeTextRequirements
  dsimp only
  refine ⟨?_, ?_, ?_, ?_, ?_⟩
  · split
    · unfold defaultRooms
      split <;> simp
    · next hlen =>
      intro hnil
      rw [hnil] at hlen
      simp at hlen
  · intro h1 h2
    unfold detectBuildingType
    simp [h1, h2]
  · intro h1 h2
    unfold detectSize
    simp [h1, h2]
  · intro h1 h2 h3
    unfold detectStyle
    simp [h1, h2, h3]
  · intro h1
    unfold detectFloors
    simp [h1]

/-- Witness for C5 at an input with no keywords at all. -/
theorem heuristic_analyzer_total_with_defaults_witness :
    (analyzeTextRequirements "a cozy cabin").rooms ≠ [] ∧
    (analyzeTextRequirements "a cozy cabin").buildingType = "residential" ∧
    (analyzeTextRequirements "a cozy cabin").size = "medium" ∧
    (analyzeTextRequirements "a cozy cabin").style = "modern" ∧
    (analyzeTextRequirements "a cozy cabin").floors = 1 :=
  have h := heuristic_analyzer_total_with_defaults "a cozy cabin"
  ⟨h.1, h.2.1 (by decide) (by decide), h.2.2.1 (by decide) (by decide),
   h.2.2.2.1 (by decide) (by decide) (by decide), h.2.2.2.2 (by decide)⟩

/-- C6: over the full write history of a job (queued at creation through the
terminal write, for either outcome of the generation call), every present
progress value lies in [0, 100], the progress values are pairwise
non-decreasing in write order (hence over any subsequence observed by
successive polls), and a record carries progress 100 exactly when its status
is `completed` — on the failure path the terminal record carries no progress
at all, so 100 is never observed there. -/
theorem job_progress_monotone_bounded (t0 : Nat) (o : Except String CadResult) :
    (∀ r ∈ cadJobWriteHistory t0 o, ∀ p, r.progress = some p → p ≤ 100) ∧
    (cadJobWriteHistory t0 o).Pairwise
      (fun a b => ∀ pa pb, a.progress = some pa → b.progress = some pb → pa ≤ pb) ∧
    (∀ r ∈ cadJobWriteHistory t0 o, r.progress = some 100 → r.status = .completed) ∧
    (∀ r ∈ cadJobWriteHistory t0 o, r.status = .completed → r.progress = some 100) := by
  cases o with
  | ok r =>
    refine ⟨?_, ?_, ?_, ?_⟩ <;>
      simp [cadJobWriteHistory, jobWrites, List.pairwise_cons]
  | error e =>
    refine ⟨?_, ?_, ?_, ?_⟩ <;>
      simp [cadJobWriteHistory, jobWrites, List.pairwise_cons]

/-- C7: an input bundle with no populated modality is rejected with HTTP 400
by both submission endpoints before any job exists: the cad-generator handler
returns the 400 error with the job store unchanged (no job id issued), and
the multimodal handler returns its 400 error. -/
theorem empty_bundle_rejected (p s sp ph : Option String) (st : JobStore)
    (newId : String) (now : Nat) (env : ExtEnv) (aenv : AgentEnv)
    (h1 : truthy p = false) (h2 : truthy s = false)
    (h3 : truthy sp = false) (h4 : truthy ph = false) :
    cadPOST ⟨p, s, sp, ph⟩ st newId now =
      (.rejected 400 "At least one input type is required", st) ∧
    multimodalPOST ⟨p, s, sp, ph⟩ env aenv =
      .failure 400
        "At least one input type (text, sketch, speech, or photo) is required"
        none := by
  constructor
  · unfold cadPOST
    simp [h1, h2, h3, h4]
  · unfold multimodalPOST
    simp [h1, h2, h3, h4]

/-- Witness for C7: the all-empty bundle against the empty store. -/
theorem empty_bundle_rejected_witness :
    truthy (some "") = false ∧
    cadPOST ⟨some "", none, none, none⟩ [] "cad_1" 0 =
      (.rejected 400 "At least one input type is required", []) ∧
    multimodalPOST ⟨some "", none, none, none⟩
        ⟨.unavailable, none, none⟩ ⟨.timedOut, .timedOut, .timedOut, false⟩ =
      .failure 400
        "At least one input type (text, sketch, speech, or photo) is required"
        none :=
  have h := empty_bundle_rejected (some "") none none none [] "cad_1" 0
    ⟨.unavailable, none, none⟩ ⟨.timedOut, .timedOut, .timedOut, false⟩
    rfl rfl rfl rfl
  ⟨rfl, h.1, h.2⟩

set_option maxRecDepth 40000 in
/-- C8 (code bug): with text input "Create a simple 2-bedroom house" and no
Azure configured, the fast strategy produces a 2-room model, so the route
enters its success branch — but that branch evaluates
`this.generateCodeFromModel(...)` with `this` undefined, throws, and the
handler answers HTTP 500 instead of returning the model.  (The agent pipeline
is still only reached from the zero-room branch, as the claim states.) -/
theorem fast_path_success_throws_500 :
    fastPathRoomCount (processMultimodalInput
        ⟨some "Create a simple 2-bedroom house", none, none, none⟩
        ⟨.unavailable, none, none⟩) = 2 ∧
    multimodalPOST ⟨some "Create a simple 2-bedroom house", none, none, none⟩
        ⟨.unavailable, none, none⟩ ⟨.timedOut, .timedOut, .timedOut, false⟩ =
      .failure 500 "Failed to process multimodal input"
        (some thisUndefinedTypeError) := by
  with_unfolding_all decide

/-- C9 counterexample: the quick path model for the prompt "Create a simple
2-bedroom house" is not the Heuristic Text Analyzer + Model Synthesizer model
for that prompt (the quick route returns a fixed living_room/kitchen model and
never consults the prompt). -/
theorem quick_path_not_heuristic_counterexample :
    (quickPOST (some "Create a simple 2-bedroom house")).modelData ≠
      heuristicModel "Create a simple 2-bedroom house" := by
  with_unfolding_all decide

/-- C9 amended: the quick path responds synchronously with a model that is
constant — independent of the supplied prompt — namely the fixed two-room
living_room/kitchen layout; it does not run the Heuristic Text Analyzer. -/
theorem quick_path_constant_model (p q : Option String) :
    quickPOST p = quickPOST q ∧
    (quickPOST p).modelData.rooms.map SynthRoom.name = ["living_room", "kitchen"] :=
  ⟨rfl, rfl⟩

/-- C10 counterexample: after `complete` reaches the terminal completed state,
a subsequent `fail` write is not a no-op — it overwrites the status, erases
the result, and stores the error (the store's `jobs.set` has no terminal
guard). -/
theorem terminal_not_idempotent_counterexample :
    (storeGet (completeJob [("cad_1", ⟨.queued, some 0, none, none, some 0⟩)]
        "cad_1" ⟨generateQuickModel "simple house", ""⟩) "cad_1").map
        JobRecord.status = some .completed ∧
    (storeGet (failJob (completeJob [("cad_1", ⟨.queued, some 0, none, none, some 0⟩)]
        "cad_1" ⟨generateQuickModel "simple house", ""⟩) "cad_1" "late failure")
        "cad_1").map JobRecord.status = some .failed ∧
    (storeGet (failJob (completeJob [("cad_1", ⟨.queued, some 0, none, none, some 0⟩)]
        "cad_1" ⟨generateQuickModel "simple house", ""⟩) "cad_1" "late failure")
        "cad_1").map JobRecord.result = some none ∧
    (storeGet (failJob (completeJob [("cad_1", ⟨.queued, some 0, none, none, some 0⟩)]
        "cad_1" ⟨generateQuickModel "simple house", ""⟩) "cad_1" "late failure")
        "cad_1").map JobRecord.error = some (some "late failure") := by
  with_unfolding_all decide

/-- C10 amended: the store's terminal writes overwrite unconditionally, so a
subsequent complete/fail call would change the record; what the code
guarantees is that `processCADJob` performs exactly one terminal write per
job, and it is the final write of the job's history — so no subsequent
complete/fail call ever occurs during a run. -/
theorem terminal_write_exactly_once (t0 : Nat) (o : Except String CadResult) :
    (cadJobWriteHistory t0 o).countP
      (fun r => decide (r.status = .completed ∨ r.status = .failed)) = 1 ∧
    ∃ last, (cadJobWriteHistory t0 o).getLast? = some last ∧
      (last.status = .completed ∨ last.status = .failed) := by
  cases o with
  | ok r => exact ⟨rfl, ⟨_, rfl, Or.inl rfl⟩⟩
  | error e => exact ⟨rfl, ⟨_, rfl, Or.inr rfl⟩⟩
